import Mathlib

/-!
Shallow embedding of `stock_advisor.py` (AI stock sell-advice batch script).

External collaborators (pykrx market data, the `ta` indicator library, the
news page, the OpenAI completion endpoint, SQLite, `json`) are modelled as
explicit oracle parameters; everything the repository's own code does with
their results is translated faithfully: pandas DataFrames become
column-labelled lists of values, Python exceptions become `Except` values,
`try`/`except` blocks become `match` on those values, and SQLite rows become
a Lean list that inserts append to.
-/

/-- A cell of a pandas DataFrame: a number, a string, a datetime (year,
month, day) or a null/NaN. -/
inductive Value where
  | num : Rat → Value
  | str : String → Value
  | date : Nat → Nat → Nat → Value
  | null : Value
deriving DecidableEq

/-- A pandas DataFrame, column-major: list of (column name, cells). -/
structure DataFrame where
  cols : List (String × List Value)
deriving DecidableEq

/-- Column selection `df[c]`: `some` cells, or `none` for the KeyError case. -/
def getCol (df : DataFrame) (c : String) : Option (List Value) :=
  match df.cols.find? (fun p => decide (p.1 = c)) with
  | some p => some p.2
  | none => none

/-- Column assignment `df[c] = vs`: replaces the column when present,
appends a new column otherwise. -/
def setCol (df : DataFrame) (c : String) (vs : List Value) : DataFrame :=
  if (df.cols.find? (fun p => decide (p.1 = c))).isSome then
    ⟨df.cols.map (fun p => if p.1 = c then (p.1, vs) else p)⟩
  else
    ⟨df.cols ++ [(c, vs)]⟩

/-- `df.empty`: true when the frame has no columns or no rows. -/
def DataFrame.isEmpty (df : DataFrame) : Bool :=
  match df.cols with
  | [] => true
  | c :: _ => c.2.isEmpty

/-- The raw pykrx OHLCV result: a date index plus named data columns
(`stock.get_market_ohlcv_by_date` returns a frame indexed by 날짜). -/
structure RawOhlcv where
  indexName : String
  index : List Value
  dataCols : List (String × List Value)

/-- `df.reset_index(inplace=True)`: the index becomes the leading column. -/
def resetIndex (r : RawOhlcv) : DataFrame :=
  ⟨(r.indexName, r.index) :: r.dataCols⟩

/-- First translation found for a name in a rename map, else the name. -/
def lookupName (m : List (String × String)) (s : String) : String :=
  match m.find? (fun q => decide (q.1 = s)) with
  | some q => q.2
  | none => s

/-- `df.rename(columns=...)`. -/
def renameCols (m : List (String × String)) (df : DataFrame) : DataFrame :=
  ⟨df.cols.map (fun p => (lookupName m p.1, p.2))⟩

/-- The rename map used by `get_stock_data`. -/
def ohlcvRename : List (String × String) :=
  [("날짜", "date"), ("시가", "open"), ("고가", "high"),
   ("저가", "low"), ("종가", "close"), ("거래량", "volume")]

/-- Round a rational to 2 decimal places (`df.round(2)` on a cell). -/
def round2 (q : Rat) : Rat := (round (q * 100) : Int) / 100

/-- `df.round(2)` touches only numeric cells. -/
def roundValue : Value → Value
  | .num q => .num (round2 q)
  | v => v

/-- `df.round(2)` over the whole frame. -/
def DataFrame.round2 (df : DataFrame) : DataFrame :=
  ⟨df.cols.map (fun p => (p.1, p.2.map roundValue))⟩

/-- The `ta` library's indicator computations (RSIIndicator, MACD,
BollingerBands), external code: opaque functions from the close series to
an indicator series.  `rsi` takes the window argument (source passes 14). -/
structure TaLib where
  rsi : Nat → List Value → List Value
  macd : List Value → List Value
  macdSignal : List Value → List Value
  bollingerHband : List Value → List Value
  bollingerMavg : List Value → List Value
  bollingerLband : List Value → List Value

/-- `add_technical_indicators(df)`: reads `df['close']` (KeyError when the
column is absent, re-raised by the source's `except KeyError` handler),
attaches rsi / macd / macd_signal / bb_high / bb_mid / bb_low columns and
rounds every numeric cell to 2 decimals. -/
def add_technical_indicators (tl : TaLib) (df : DataFrame) : Except String DataFrame :=
  match getCol df "close" with
  | none => .error "KeyError: close"
  | some close =>
    let d1 := setCol df "rsi" (tl.rsi 14 close)
    let d2 := setCol d1 "macd" (tl.macd close)
    let d3 := setCol d2 "macd_signal" (tl.macdSignal close)
    let d4 := setCol d3 "bb_high" (tl.bollingerHband close)
    let d5 := setCol d4 "bb_mid" (tl.bollingerMavg close)
    let d6 := setCol d5 "bb_low" (tl.bollingerLband close)
    .ok (DataFrame.round2 d6)

/-- `get_stock_data(ticker, days)`: fetches the OHLCV window (the oracle's
`.error` covers every exception the upstream call can raise), resets the
index, renames the Korean columns, returns `none` for an empty frame, and
catches any indicator failure (the function's blanket `except` clauses all
return `None`). -/
def get_stock_data (fetch : Nat → Nat → String → Except String RawOhlcv)
    (tl : TaLib) (today : Nat) (ticker : String) (days : Nat) : Option DataFrame :=
  match fetch (today - days) today ticker with
  | .error _ => none
  | .ok raw =>
    let df := renameCols ohlcvRename (resetIndex raw)
    if DataFrame.isEmpty df then none
    else
      match add_technical_indicators tl df with
      | .error _ => none
      | .ok d => some d

/-- The parsed news page: either an exception during fetch/parse, or the
list of headline texts found under the `.title a` selector. -/
def get_news_headlines (page : String → Except String (List String))
    (ticker : String) (count : Nat) : List String :=
  match page ticker with
  | .error _ => []
  | .ok titles => titles.take count

/-- Fundamental ratios for one ticker (`get_fundamental_data`'s dict);
every field may be missing upstream. -/
structure FundData where
  BPS : Option Rat
  PER : Option Rat
  PBR : Option Rat
  EPS : Option Rat
  DIV : Option Rat
  DPS : Option Rat

/-- `get_fundamental_data(ticker)`: the body is entirely pykrx lookups
(latest market date, market-wide fundamentals, filter to the ticker)
wrapped in a blanket `try`/`except` returning `None`; the oracle stands for
that whole external exchange. -/
def get_fundamental_data (fund : String → Option FundData) (ticker : String) :
    Option FundData :=
  fund ticker

/-- A parsed JSON value, as produced by `json.loads`. -/
inductive Json where
  | obj : List (String × Json) → Json
  | arr : List Json → Json
  | str : String → Json
  | num : Rat → Json
  | bool : Bool → Json
  | null : Json

/-- Python truthiness of a parsed JSON value (`if not advice`). -/
def pyTruthy : Json → Bool
  | .obj kvs => !kvs.isEmpty
  | .arr l => !l.isEmpty
  | .str s => !s.isEmpty
  | .num q => decide (q ≠ 0)
  | .bool b => b
  | .null => false

/-- Dict lookup `d.get(k)` on a JSON object's key/value list. -/
def jsonLookup (kvs : List (String × Json)) (k : String) : Option Json :=
  match kvs.find? (fun p => decide (p.1 = k)) with
  | some p => some p.2
  | none => none

/-- Outcome of `client.chat.completions.create` followed by `json.loads`
on the returned content: the call itself may raise, the content may fail
to parse as JSON, or it parses to some JSON value. -/
inductive ApiResult where
  | callFailure : String → ApiResult
  | parseFailure : String → ApiResult
  | parsed : Json → ApiResult

/-- True on the two outcomes the source's `except` clause catches. -/
def ApiResult.isFailureOutcome : ApiResult → Bool
  | .parsed _ => false
  | _ => true

/-- Left-pads a decimal rendering of `n` with zeros to `width` digits. -/
def padNum (width n : Nat) : String :=
  let s := toString n
  String.mk (List.replicate (width - s.length) '0') ++ s

/-- `strftime('%Y-%m-%d')`. -/
def formatDateString (y m d : Nat) : String :=
  padNum 4 y ++ "-" ++ padNum 2 m ++ "-" ++ padNum 2 d

/-- The in-place date reformatting applied by `get_ai_advice` to the
fetched frame: datetime cells become `YYYY-MM-DD` strings. -/
def formatDateValue : Value → Value
  | .date y m d => .str (formatDateString y m d)
  | v => v

/-- Inserts a thousands separator every three digits (Python `:,` format),
given the digit list least-significant first. -/
def groupThrees : List Char → List Char
  | a :: b :: c :: d :: rest => a :: b :: c :: ',' :: groupThrees (d :: rest)
  | l => l

/-- Python `f"{q:,.0f}"`: round to an integer and group digits by threes. -/
def formatMoney (q : Rat) : String :=
  let i : Int := round q
  (if i < 0 then "-" else "") ++ String.mk (groupThrees (toString i.natAbs).data.reverse).reverse

/-- Double-quoted JSON string rendering (escaping elided). -/
def quoteStr (s : String) : String := "\"" ++ s ++ "\""

/-- JSON rendering of one DataFrame cell (`DataFrame.to_json`). -/
def valueJson : Value → String
  | .num q => toString q
  | .str s => quoteStr s
  | .date y m d => quoteStr (formatDateString y m d)
  | .null => "null"

/-- Number of rows of the frame. -/
def DataFrame.nrows (df : DataFrame) : Nat :=
  match df.cols with
  | [] => 0
  | c :: _ => c.2.length

/-- Row `i` as (column, cell) pairs. -/
def DataFrame.rowAt (df : DataFrame) (i : Nat) : List (String × Value) :=
  df.cols.map (fun p => (p.1, p.2.getD i Value.null))

/-- The frame in records orientation. -/
def DataFrame.recordsList (df : DataFrame) : List (List (String × Value)) :=
  (List.range df.nrows).map df.rowAt

/-- One record object of `to_json(orient='records')`. -/
def rowJson (r : List (String × Value)) : String :=
  "\x7b" ++ String.intercalate ", " (r.map (fun p => quoteStr p.1 ++ ": " ++ valueJson p.2)) ++ "\x7d"

/-- `stock_data.to_json(orient='records', indent=2)` (indentation elided). -/
def dfToJsonStr (df : DataFrame) : String :=
  "[" ++ String.intercalate ",\n" (df.recordsList.map rowJson) ++ "]"

/-- JSON rendering of an optional ratio. -/
def optRatJson : Option Rat → String
  | none => "null"
  | some q => toString q

/-- JSON rendering of the fundamental-data dict (or `null` when absent). -/
def fundJson : Option FundData → String
  | none => "null"
  | some f =>
    "\x7b" ++ quoteStr "BPS" ++ ": " ++ optRatJson f.BPS ++ ", " ++
    quoteStr "PER" ++ ": " ++ optRatJson f.PER ++ ", " ++
    quoteStr "PBR" ++ ": " ++ optRatJson f.PBR ++ ", " ++
    quoteStr "EPS" ++ ": " ++ optRatJson f.EPS ++ ", " ++
    quoteStr "DIV" ++ ": " ++ optRatJson f.DIV ++ ", " ++
    quoteStr "DPS" ++ ": " ++ optRatJson f.DPS ++ "\x7d"

/-- JSON rendering of the headline list. -/
def newsJson (ns : List String) : String :=
  "[" ++ String.intercalate ", " (ns.map quoteStr) ++ "]"

/-- `json.dumps(additional_info, ...)`: the news headlines, the
fundamental dict and the client's average buy price. -/
def additionalInfoJson (news : List String) (fund : Option FundData) (avg : Rat) : String :=
  "\x7b" ++ quoteStr "recent_news_headlines" ++ ": " ++ newsJson news ++ ", " ++
  quoteStr "fundamental_data" ++ ": " ++ fundJson fund ++ ", " ++
  quoteStr "client_average_buy_price" ++ ": " ++ toString avg ++ "\x7d"

/-- The fixed **[매우 중요한 규칙]** paragraph of the system prompt: the
no-sell-below-average-buy-price policy, stated as instruction text only. -/
def mandatoryPolicyRule : String :=
  "**[매우 중요한 규칙]**\n고객의 목표가 \x27최소 매수 단가 이상에서 매도\x27하는 것일 경우, 현재 주가가 고객의 평균 매수 단가보다 낮다면 **절대로 \x27SELL NOW\x27를 추천해서는 안 됩니다.**\n이 경우, 기술적으로 하락 추세가 예상되더라도 반드시 \x27HOLD\x27를 추천하고, 손실을 최소화하기 위한 전략(예: 추가 하락 시 손절 라인 제안) 또는 반등을 기다리기 위한 조건을 설명해야 합니다.\n고객의 심리적 안정과 원금 회복 의지가 기술적 분석보다 우선순위가 높습니다.\n"

/-- The part of the system prompt before the mandatory rule (with the
interpolated stock name, ticker, formatted buy price and goal). -/
def promptIntro (stock_name ticker goal : String) (avg_buy_price : Rat) : String :=
  "\n당신은 최고의 주식 시장 분석가입니다. 고객이 보유 중인 주식을 언제 매도해야 할지에 대한 조언을 구하고 있습니다.\n\n종목: " ++ stock_name ++ " (" ++ ticker ++ ")\n고객의 평균 매수 단가: " ++ formatMoney avg_buy_price ++ "원\n고객의 목표: " ++ goal ++ "\n\n제공된 모든 데이터를 분석하세요:\n1.  **최신 뉴스 헤드라인**: 현재 시장 심리와 잠재적 이벤트를 파악합니다.\n2.  **기본적 분석 데이터 (PBR, PER 등)**: 주식의 가치 평가를 이해합니다.\n3.  **기술적 분석 데이터 (OHLCV + 지표)**: 가격 추세와 모멘텀을 분석합니다.\n\n이 세 가지 측면(뉴스 심리, 기본적 가치 평가, 기술적 분석)을 종합하여 전체적이고 논리적인 추천을 제공하세요.\n\n"

/-- The part of the system prompt after the mandatory rule (the required
JSON response shape). -/
def promptOutro : String :=
  "\n응답은 다음 구조의 한국어 JSON 형식으로 제공해야 합니다:\n\x7b\n  \"decision\": \"SELL NOW\" | \"HOLD\",\n  \"confidence\": \"High\" | \"Medium\" | \"Low\",\n  \"analysis_summary\": \"뉴스, 기본적 분석, 기술적 분석을 결합한 종합적인 분석 요약.\",\n  \"action_plan\": \"고객을 위한 구체적인 실행 계획. \x27SELL NOW\x27의 경우 가격을 명시하고, \x27HOLD\x27의 경우 주시해야 할 조건을 명시하세요.\"\n\x7d\n"

/-- The full `system_prompt` f-string of `get_ai_advice`. -/
def buildSystemPrompt (stock_name ticker goal : String) (avg_buy_price : Rat) : String :=
  promptIntro stock_name ticker goal avg_buy_price ++ mandatoryPolicyRule ++ promptOutro

/-- The `user_content` f-string of `get_ai_advice`. -/
def buildUserContent (news : List String) (fund : Option FundData) (avg : Rat)
    (data_json : String) : String :=
  "\nHere is the data for analysis.\n\n### Additional Information\n" ++
  additionalInfoJson news fund avg ++ "\n\n### Technical Data\n" ++ data_json ++ "\n"

/-- The `try` block around the completion call and `json.loads`: the
parsed value on success, `None` when either step raised. -/
def adviceFromApi : ApiResult → Option Json
  | .parsed j => some j
  | .callFailure _ => none
  | .parseFailure _ => none

/-- `get_ai_advice`: reformats the `date` column **in place** (a missing
`date` column would raise outside the function's `try` block, hence the
`Except` layer), serializes the frame, builds the prompts, performs the
completion call, and returns whatever JSON value the response parses to
(`None` exactly when the call or the JSON parse raises).  The returned
pair carries the advice and the frame as left behind by the mutation. -/
def get_ai_advice (api : String → String → ApiResult) (stock_name ticker goal : String)
    (avg_buy_price : Rat) (stock_data : DataFrame) (news_headlines : List String)
    (fundamental_data : Option FundData) : Except String (Option Json × DataFrame) :=
  match getCol stock_data "date" with
  | none => .error "AttributeError: date"
  | some dates =>
    let mutated := setCol stock_data "date" (dates.map formatDateValue)
    let data_json := dfToJsonStr mutated
    let system_prompt := buildSystemPrompt stock_name ticker goal avg_buy_price
    let user_content := buildUserContent news_headlines fundamental_data avg_buy_price data_json
    .ok (adviceFromApi (api system_prompt user_content), mutated)

/-- The `decision` field of a returned advice value, when the advice is
present and is a JSON object. -/
def decisionOf (advice : Option Json) : Option Json :=
  match advice with
  | some (.obj kvs) => jsonLookup kvs "decision"
  | _ => none

/-- `print_advice`: returns early on a falsy advice, otherwise subscripts
`advice['decision']`, `['confidence']`, `['analysis_summary']` and
`['action_plan']` — a TypeError on a non-dict value and a KeyError on a
missing key, neither of which any caller catches. -/
def print_advice (advice : Option Json) : Except String Unit :=
  match advice with
  | none => .ok ()
  | some j =>
    if pyTruthy j then
      match j with
      | .obj kvs =>
        match jsonLookup kvs "decision", jsonLookup kvs "confidence",
              jsonLookup kvs "analysis_summary", jsonLookup kvs "action_plan" with
        | some _, some _, some _, some _ => .ok ()
        | _, _, _, _ => .error "KeyError"
      | _ => .error "TypeError"
    else .ok ()

/-- One persisted `stock_advice` row (the id / timestamp / created_at
columns that SQLite fills in are orthogonal to every claim and elided).
The four advice columns hold `advice.get(...)` results, so each may be
SQL NULL. -/
structure Row where
  stock_name : String
  ticker : String
  decision : Option Json
  confidence : Option Json
  analysis_summary : Option Json
  action_plan : Option Json
  current_price : Value

/-- The body of `save_stock_advice`'s `try` block: `advice.get` raises
AttributeError on a non-dict value, and the INSERT itself may fail
(connection/DB errors), driven by the `failInsert` oracle flag. -/
def saveInsert (failInsert : Bool) (db : List Row) (stock_name ticker : String)
    (current_price : Value) (j : Json) : Except String (List Row) :=
  match j with
  | .obj kvs =>
    if failInsert then .error "sqlite3.OperationalError"
    else .ok (db ++ [⟨stock_name, ticker, jsonLookup kvs "decision",
                      jsonLookup kvs "confidence", jsonLookup kvs "analysis_summary",
                      jsonLookup kvs "action_plan", current_price⟩])
  | _ => .error "AttributeError"

/-- `save_stock_advice`: returns at once on a falsy advice (`if not
advice: return`), otherwise runs the insert under the `try`/`except` that
logs and swallows every failure. -/
def save_stock_advice (failInsert : Bool) (db : List Row) (stock_name ticker : String)
    (current_price : Value) (advice : Option Json) : List Row :=
  match advice with
  | none => db
  | some j =>
    if pyTruthy j then
      match saveInsert failInsert db stock_name ticker current_price j with
      | .ok db2 => db2
      | .error _ => db
    else db

/-- The columns of the `stock_advice` table created by
`init_stock_database`. -/
def adviceTableColumns : List String :=
  ["id", "timestamp", "stock_name", "ticker", "decision", "confidence",
   "analysis_summary", "action_plan", "current_price", "created_at"]

/-- The SQLite store: the `stock_advice` table's schema when it exists,
and its rows. -/
structure Store where
  table : Option (List String)
  rows : List Row

/-- `init_stock_database`: `CREATE TABLE IF NOT EXISTS stock_advice` —
creates the table when absent and leaves an existing table untouched. -/
def init_stock_database (s : Store) : Store :=
  match s.table with
  | some sch => ⟨some sch, s.rows⟩
  | none => ⟨some adviceTableColumns, s.rows⟩

/-- One watchlist entry of `stocks_to_analyze`. -/
structure Entry where
  name : String
  ticker : String
  avg_buy_price : Rat
  goal : String

/-- First watchlist literal: 한화오션. -/
def hanwhaOcean : Entry :=
  ⟨"한화오션", "042660", 132800,
   "평균 매수 단가는 132,800원입니다. 현재 상당한 손실 상태이며, 심리적으로 손해를 보지 않는 선(최소한 매수 단가 이상)에서 매도하고 싶습니다. 기술적 반등을 이용해 손실을 최소화하거나 수익을 낼 수 있는 최적의 매도 시점을 찾아주세요."⟩

/-- Second watchlist literal: 모아데이타. -/
def moaData : Entry :=
  ⟨"모아데이타", "288980", 2530,
   "평균 매수 단가는 2,530원입니다. 현재 상당한 손실 상태이며, 심리적으로 손해를 보지 않는 선(최소한 매수 단가 이상)에서 매도하고 싶습니다. 기술적 반등을 이용해 손실을 최소화하거나 수익을 낼 수 있는 최적의 매도 시점을 찾아주세요."⟩

/-- Third watchlist literal: TIGER 미국S&P500 (no recorded buy price). -/
def tigerSnp500 : Entry :=
  ⟨"TIGER 미국S&P500", "360750", 0,
   "개인적인 용도로 사용할 현금 확보를 위해 매도 희망. 시장 고점에서 이익을 실현할 좋은 기회를 찾고 있음."⟩

/-- The fixed watchlist literal inside `run_analysis`. -/
def stocks_to_analyze : List Entry := [hanwhaOcean, moaData, tigerSnp500]

/-- Every external boundary one batch pass touches.  `failInsert` selects,
per ticker, whether the SQLite INSERT for that symbol fails. -/
structure Oracles where
  fetch : Nat → Nat → String → Except String RawOhlcv
  taLib : TaLib
  today : Nat
  newsPage : String → Except String (List String)
  fundamentals : String → Option FundData
  api : String → String → ApiResult
  failInsert : String → Bool

/-- Replaces the insert-failure oracle. -/
def setFail (o : Oracles) (f : String → Bool) : Oracles :=
  { o with failInsert := f }

/-- Last cell of the `close` column (`stock_data.iloc[-1]['close']`). -/
def lastCloseValue (df : DataFrame) : Option Value :=
  match getCol df "close" with
  | none => none
  | some vs => vs.getLast?

/-- The body of `run_analysis`'s per-entry loop: fetch 180 days of data
with indicators; when absent or empty, log and skip; otherwise read the
current price, gather news and fundamentals, ask the model, print and
save.  The second component carries an uncaught Python exception (from the
date mutation or from `print_advice`) — nothing in the source catches
those, so they abort the whole pass. -/
def processEntry (o : Oracles) (e : Entry) (db : List Row) : List Row × Option String :=
  match get_stock_data o.fetch o.taLib o.today e.ticker 180 with
  | none => (db, none)
  | some stock_data =>
    if DataFrame.isEmpty stock_data then (db, none)
    else
      match lastCloseValue stock_data with
      | none => (db, some "KeyError: close")
      | some current_price =>
        let news := get_news_headlines o.newsPage e.ticker 5
        let fundamentals := get_fundamental_data o.fundamentals e.ticker
        match get_ai_advice o.api e.name e.ticker e.goal e.avg_buy_price
            stock_data news fundamentals with
        | .error msg => (db, some msg)
        | .ok (advice, _mutated) =>
          match print_advice advice with
          | .error msg => (db, some msg)
          | .ok _ =>
            (save_stock_advice (o.failInsert e.ticker) db e.name e.ticker
               current_price advice, none)

/-- The `for stock_info in stocks_to_analyze` loop: entries processed in
order, stopping early only when an uncaught exception escapes an entry. -/
def runEntries (o : Oracles) : List Entry → List Row → List Row × Option String
  | [], db => (db, none)
  | e :: rest, db =>
    match processEntry o e db with
    | (db2, none) => runEntries o rest db2
    | (db2, some msg) => (db2, some msg)

/-- `run_analysis()`: one batch pass over the fixed watchlist. -/
def run_analysis (o : Oracles) (db : List Row) : List Row × Option String :=
  runEntries o stocks_to_analyze db

/-- Seconds per day, for the scheduler model. -/
def secondsPerDay : Nat := 86400

/-- The `schedule` library's next occurrence of a daily at-time: today's
occurrence when still in the future, otherwise tomorrow's. -/
def nextOccurrence (t offset : Nat) : Nat :=
  if t / secondsPerDay * secondsPerDay + offset ≤ t then
    t / secondsPerDay * secondsPerDay + offset + secondsPerDay
  else
    t / secondsPerDay * secondsPerDay + offset

/-- Seconds after midnight of a wall-clock `HH:MM`. -/
def atTime (h m : Nat) : Nat := h * 3600 + m * 60

/-- The "08:50" trigger of the source. -/
def morningAt : Nat := atTime 8 50

/-- The "15:00" trigger of the source. -/
def afternoonAt : Nat := atTime 15 0

/-- One Batch Runner pass as the scheduler sees it: the scheduled time
that made it run, the wall-clock second it started and the second                  
it finished (the pass blocks the whole interval). -/
structure PassEvent where
  trigger : Nat
  startT : Nat
  finishT : Nat
deriving DecidableEq

/-- Result of one `schedule.run_pending()` poll: the rescheduled jobs,
the passes that ran, the next pass index and the wall-clock time when the
poll returned. -/
structure RunPendingResult where
  jobs : List (Nat × Nat)
  events : List PassEvent
  passCount : Nat
  time : Nat

/-- `schedule.run_pending()` at time `t` over jobs given as (daily
at-time offset, next-run time): a job whose next-run time has arrived runs
`run_analysis` synchronously (the `dur` oracle gives each pass's duration)
and is rescheduled to the next daily occurrence after it finishes. -/
def run_pending (dur : Nat → Nat) : Nat → Nat → List (Nat × Nat) → RunPendingResult
  | k, t, [] => ⟨[], [], k, t⟩
  | k, t, (off, nr) :: rest =>
    if nr ≤ t then
      let fin := t + dur k
      let r := run_pending dur (k + 1) fin rest
      ⟨(off, nextOccurrence fin off) :: r.jobs, ⟨nr, t, fin⟩ :: r.events, r.passCount, r.time⟩
    else
      let r := run_pending dur k t rest
      ⟨(off, nr) :: r.jobs, r.events, r.passCount, r.time⟩

/-- The `while True: schedule.run_pending(); time.sleep(1)` loop, unrolled
for `fuel` iterations. -/
def schedulerLoop (dur : Nat → Nat) : Nat → Nat → Nat → List (Nat × Nat) → List PassEvent
  | 0, _, _, _ => []
  | fuel + 1, k, t, jobs =>
    let r := run_pending dur k t jobs
    r.events ++ schedulerLoop dur fuel r.passCount (r.time + 1) r.jobs

/-- The `__main__` block, started at wall-clock second `t0`: register the
08:50 and 15:00 daily jobs, run one pass immediately, then poll.  Returns
the trace of Batch Runner passes. -/
def mainProgram (dur : Nat → Nat) (fuel t0 : Nat) : List PassEvent :=
  let jobs := [(morningAt, nextOccurrence t0 morningAt),
               (afternoonAt, nextOccurrence t0 afternoonAt)]
  ⟨t0, t0, t0 + dur 0⟩ :: schedulerLoop dur fuel 1 (t0 + dur 0) jobs

/-- Well-formed, sequential pass trace from lower time bound `lo`: each
pass starts no earlier than `lo` and than its trigger, runs for a
nonnegative interval, and the next pass begins only after it finishes. -/
def eventsWF : Nat → List PassEvent → Prop
  | _, [] => True
  | lo, e :: rest =>
    lo ≤ e.startT ∧ e.trigger ≤ e.startT ∧ e.startT ≤ e.finishT ∧ eventsWF e.finishT rest

/-- Finish time of the last pass of a trace (`lo` for the empty trace). -/
def eventsEnd (lo : Nat) : List PassEvent → Nat
  | [] => lo
  | e :: rest => eventsEnd e.finishT rest

/-- Jobs invariant: every registered job is one of the two daily triggers,
its next-run time lies on that daily schedule, and is strictly after
process start. -/
def jobsWF (t0 : Nat) (jobs : List (Nat × Nat)) : Prop :=
  ∀ p ∈ jobs, (p.1 = morningAt ∨ p.1 = afternoonAt) ∧
    p.2 % secondsPerDay = p.1 ∧ t0 < p.2

/-- Character-list prefix test. -/
def leadsWith : List Char → List Char → Bool
  | [], _ => true
  | _ :: _, [] => false
  | a :: as, b :: bs => a == b && leadsWith as bs

/-- Character-list substring occurrence test. -/
def containsList (pat : List Char) : List Char → Bool
  | [] => pat.isEmpty
  | l@(_ :: rest) => leadsWith pat l || containsList pat rest

/-- Substring occurrence test on strings. -/
def containsText (s pat : String) : Bool :=
  containsList pat.data s.data

/-- Modelled from the spec: the claim's hypothesis "goal text expresses a
no-loss (sell only at/above average buy price) constraint" is not a
predicate the code evaluates anywhere, so it is concretized from the
spec's words as: the goal mentions not taking a loss (손해를 보지 않는) or
selling at/above the buy price (매수 단가 이상에서 매도). -/
def goalSignalsNoLoss (g : String) : Bool :=
  containsText g "손해를 보지 않는" || containsText g "매수 단가 이상"

/-- Number of persisted rows carrying a given ticker. -/
def rowsFor (t : String) (db : List Row) : Nat :=
  (db.filter (fun r => decide (r.ticker = t))).length

/-- Indicator library stub whose computations all return empty series
(their values never influence any claim). -/
def taLibZero : TaLib :=
  ⟨fun _ _ => [], fun _ => [], fun _ => [], fun _ => [], fun _ => [], fun _ => []⟩

/-- A two-day frame with `date` and `close` columns, as handed to
`get_ai_advice`. -/
def dfSmall : DataFrame :=
  ⟨[("date", [Value.date 2025 10 1, Value.date 2025 10 2]),
    ("close", [Value.num 91000, Value.num 90000])]⟩

/-- `dfSmall` after `get_ai_advice`'s in-place date reformatting. -/
def dfSmallMutated : DataFrame :=
  ⟨[("date", [Value.str "2025-10-01", Value.str "2025-10-02"]),
    ("close", [Value.num 91000, Value.num 90000])]⟩

/-- A completion response that decides SELL NOW. -/
def sellNowResponse : Json :=
  Json.obj [("decision", Json.str "SELL NOW"), ("confidence", Json.str "High"),
            ("analysis_summary", Json.str "하락 추세"), ("action_plan", Json.str "즉시 매도")]

/-- Completion oracle that always answers with `sellNowResponse`. -/
def apiSellNow : String → String → ApiResult :=
  fun _ _ => ApiResult.parsed sellNowResponse

/-- Completion oracle whose response body is valid JSON but a JSON array,
not an object. -/
def apiArrayResponse : String → String → ApiResult :=
  fun _ _ => ApiResult.parsed (Json.arr [Json.num 1])

/-- Completion oracle whose call raises. -/
def apiDown : String → String → ApiResult :=
  fun _ _ => ApiResult.callFailure "APIConnectionError"

/-- A raw two-day OHLCV fetch result with all five Korean columns. -/
def rawTwoDays : RawOhlcv :=
  ⟨"날짜", [Value.date 2025 10 1, Value.date 2025 10 2],
   [("시가", [Value.num 90500, Value.num 90800]),
    ("고가", [Value.num 92000, Value.num 91500]),
    ("저가", [Value.num 90000, Value.num 89500]),
    ("종가", [Value.num 91000, Value.num 90000]),
    ("거래량", [Value.num 1000, Value.num 1200])]⟩

/-- A raw fetch result lacking the 종가 (close) column. -/
def rawNoClose : RawOhlcv :=
  ⟨"날짜", [Value.date 2025 10 1], [("시가", [Value.num 1])]⟩

/-- Oracle set where every external call fails. -/
def oracleDown : Oracles :=
  ⟨fun _ _ _ => .error "ConnectionError", taLibZero, 20000,
   fun _ => .error "ConnectionError", fun _ => none, apiDown, fun _ => false⟩

/-- Oracle set with a healthy market feed but a completion response that
parses to a JSON array. -/
def oracleArray : Oracles :=
  ⟨fun _ _ _ => .ok rawTwoDays, taLibZero, 20000,
   fun _ => .ok ["실적 호조"], fun _ => none, apiArrayResponse, fun _ => false⟩

/-- Oracle set whose market feed returns bars without a close column. -/
def oracleNoClose : Oracles :=
  ⟨fun _ _ _ => .ok rawNoClose, taLibZero, 20000,
   fun _ => .error "ConnectionError", fun _ => none, apiDown, fun _ => false⟩

/-- Oracle set with a healthy feed and a SELL NOW completion answer. -/
def oracleSellNow : Oracles :=
  ⟨fun _ _ _ => .ok rawTwoDays, taLibZero, 20000,
   fun _ => .ok ["실적 호조"], fun _ => none, apiSellNow, fun _ => false⟩

/-- Renaming a column's cells in place never changes which entry `find?`
locates under a different name. -/
theorem find?_map_setCol (cols : List (String × List Value)) (a : String)
    (vs : List Value) (c : String) (h : c ≠ a) :
    (cols.map (fun p => if p.1 = a then (p.1, vs) else p)).find?
        (fun p => decide (p.1 = c)) =
      cols.find? (fun p => decide (p.1 = c)) := by
  induction cols with
  | nil => rfl
  | cons p rest ih =>
    have hac : ¬(a = c) := fun hc => h hc.symm
    by_cases hpa : p.1 = a
    · have hpc : ¬(p.1 = c) := fun hc => hac (hpa ▸ hc)
      simp [List.find?, hpa, hpc, hac, ih]
    · by_cases hpc : p.1 = c <;> simp [List.find?, hpa, hpc, hac, h, ih]

/-- Appending a column under a different name never changes `find?`. -/
theorem find?_append_other (cols : List (String × List Value))
    (x : String × List Value) (c : String) (hx : x.1 ≠ c) :
    (cols ++ [x]).find? (fun p => decide (p.1 = c)) =
      cols.find? (fun p => decide (p.1 = c)) := by
  induction cols with
  | nil => simp [List.find?, hx]
  | cons p rest ih => by_cases hpc : p.1 = c <;> simp [List.find?, hpc, ih]

/-- `setCol` leaves every other column untouched. -/
theorem getCol_setCol_ne (df : DataFrame) (a : String) (vs : List Value)
    (c : String) (h : c ≠ a) : getCol (setCol df a vs) c = getCol df c := by
  unfold getCol setCol
  by_cases hs : (df.cols.find? (fun p => decide (p.1 = a))).isSome = true
  · rw [if_pos hs]
    dsimp only
    rw [find?_map_setCol df.cols a vs c h]
  · rw [if_neg hs]
    dsimp only
    rw [find?_append_other df.cols (a, vs) c (fun hc => h hc.symm)]

/-- A failing completion call or parse yields no advice value. -/
theorem adviceFromApi_of_failure (r : ApiResult) (h : r.isFailureOutcome = true) :
    adviceFromApi r = none := by
  cases r with
  | parsed j => simp [ApiResult.isFailureOutcome] at h
  | callFailure m => rfl
  | parseFailure m => rfl

/-- A failing INSERT is swallowed and leaves the stored rows unchanged. -/
theorem save_fail_unchanged (db : List Row) (n t : String) (p : Value)
    (a : Option Json) : save_stock_advice true db n t p a = db := by
  cases a with
  | none => rfl
  | some j => cases j <;> simp [save_stock_advice, saveInsert]

/-- `save_stock_advice` either leaves the rows unchanged or appends one
row carrying the entry's ticker. -/
theorem save_stock_advice_cases (fi : Bool) (db : List Row) (n t : String)
    (p : Value) (a : Option Json) :
    save_stock_advice fi db n t p a = db ∨
      ∃ r : Row, r.ticker = t ∧ save_stock_advice fi db n t p a = db ++ [r] := by
  cases a with
  | none => exact Or.inl rfl
  | some j =>
    cases j with
    | obj kvs =>
      by_cases hf : fi
      · exact Or.inl (by simp [save_stock_advice, saveInsert, hf])
      · by_cases ht : pyTruthy (Json.obj kvs)
        · refine Or.inr ⟨⟨n, t, jsonLookup kvs "decision", jsonLookup kvs "confidence",
            jsonLookup kvs "analysis_summary", jsonLookup kvs "action_plan", p⟩, rfl, ?_⟩
          simp [save_stock_advice, saveInsert, hf, ht]
        · exact Or.inl (by simp [save_stock_advice, ht])
    | arr l => exact Or.inl (by simp [save_stock_advice, saveInsert])
    | str s => exact Or.inl (by simp [save_stock_advice, saveInsert])
    | num q => exact Or.inl (by simp [save_stock_advice, saveInsert])
    | bool b => exact Or.inl (by simp [save_stock_advice, saveInsert])
    | null => exact Or.inl (by simp [save_stock_advice, saveInsert])

/-- One loop iteration either leaves the stored rows unchanged (skip,
uncaught exception, absent advice, swallowed insert failure) or appends
exactly one row, tagged with that entry's ticker. -/
theorem processEntry_cases (o : Oracles) (e : Entry) (db : List Row) :
    (∃ err, processEntry o e db = (db, err)) ∨
      ∃ r : Row, r.ticker = e.ticker ∧ processEntry o e db = (db ++ [r], none) := by
  unfold processEntry
  cases get_stock_data o.fetch o.taLib o.today e.ticker 180 with
  | none => exact Or.inl ⟨none, rfl⟩
  | some sd =>
    dsimp only
    by_cases he : DataFrame.isEmpty sd = true
    · rw [if_pos he]
      exact Or.inl ⟨none, rfl⟩
    · rw [if_neg he]
      cases lastCloseValue sd with
      | none => exact Or.inl ⟨some "KeyError: close", rfl⟩
      | some cp =>
        dsimp only
        cases get_ai_advice o.api e.name e.ticker e.goal e.avg_buy_price sd
            (get_news_headlines o.newsPage e.ticker 5)
            (get_fundamental_data o.fundamentals e.ticker) with
        | error msg => exact Or.inl ⟨some msg, rfl⟩
        | ok pr =>
          obtain ⟨advice, mdf⟩ := pr
          dsimp only
          cases print_advice advice with
          | error msg => exact Or.inl ⟨some msg, rfl⟩
          | ok u =>
            rcases save_stock_advice_cases (o.failInsert e.ticker) db e.name e.ticker
                cp advice with hsv | ⟨r, hr, hsv⟩
            · exact Or.inl ⟨none, by rw [hsv]⟩
            · exact Or.inr ⟨r, hr, by rw [hsv]⟩

/-- Whether an entry's iteration raises, and which exception, depends only
on the oracles and the entry — never on the rows already stored and never
on whether the INSERT fails. -/
theorem processEntry_snd_indep (o : Oracles) (f : String → Bool) (e : Entry)
    (db db2 : List Row) :
    (processEntry (setFail o f) e db).2 = (processEntry o e db2).2 := by
  unfold processEntry setFail
  dsimp only
  cases get_stock_data o.fetch o.taLib o.today e.ticker 180 with
  | none => rfl
  | some sd =>
    dsimp only
    by_cases he : DataFrame.isEmpty sd = true
    · rw [if_pos he, if_pos he]
    · rw [if_neg he, if_neg he]
      cases lastCloseValue sd with
      | none => rfl
      | some cp =>
        dsimp only
        cases get_ai_advice o.api e.name e.ticker e.goal e.avg_buy_price sd
            (get_news_headlines o.newsPage e.ticker 5)
            (get_fundamental_data o.fundamentals e.ticker) with
        | error msg => rfl
        | ok pr =>
          obtain ⟨advice, mdf⟩ := pr
          dsimp only
          cases print_advice advice with
          | error msg => rfl
          | ok u => rfl

/-- Where (and whether) a batch pass aborts is independent of stored rows
and of INSERT failures. -/
theorem runEntries_snd_indep (o : Oracles) (f : String → Bool) :
    ∀ (ws : List Entry) (db db2 : List Row),
      (runEntries (setFail o f) ws db).2 = (runEntries o ws db2).2 := by
  intro ws
  induction ws with
  | nil => intro db db2; rfl
  | cons e rest ih =>
    intro db db2
    have h := processEntry_snd_indep o f e db db2
    unfold runEntries
    cases h1 : processEntry (setFail o f) e db with
    | mk dbA errA =>
      cases h2 : processEntry o e db2 with
      | mk dbB errB =>
        rw [h1, h2] at h
        dsimp only at h
        subst h
        cases errA with
        | none => exact ih dbA dbB
        | some m => rfl

/-- Appending one row adds one to the ticker count it carries and nothing
to any other ticker count. -/
theorem rowsFor_append_one (t : String) (db : List Row) (r : Row) :
    rowsFor t (db ++ [r]) = rowsFor t db + (if r.ticker = t then 1 else 0) := by
  unfold rowsFor
  rw [List.filter_append]
  by_cases h : r.ticker = t <;>
    simp [List.filter_cons, List.filter_nil, h]

/-- Entries whose tickers differ from `t` never change `t`'s row count. -/
theorem runEntries_rowsFor_of_notin (o : Oracles) (t : String) :
    ∀ (ws : List Entry) (db : List Row), t ∉ ws.map Entry.ticker →
      rowsFor t (runEntries o ws db).1 = rowsFor t db := by
  intro ws
  induction ws with
  | nil => intro db _; rfl
  | cons e rest ih =>
    intro db h
    have hET : e.ticker ≠ t := by
      intro hh
      exact h (by rw [List.map_cons]; exact hh ▸ List.mem_cons_self _ _)
    have hrest : t ∉ rest.map Entry.ticker := by
      intro hh
      exact h (by rw [List.map_cons]; exact List.mem_cons_of_mem _ hh)
    unfold runEntries
    rcases processEntry_cases o e db with ⟨err, hp⟩ | ⟨r, hr, hp⟩
    · rw [hp]
      cases err with
      | none => exact ih db hrest
      | some m => rfl
    · rw [hp]
      dsimp only
      rw [ih (db ++ [r]) hrest, rowsFor_append_one,
        if_neg (fun hh => hET (hr.symm.trans hh))]
      omega

/-- Over a duplicate-free watchlist, one batch pass grows any member
entry's row count by at most one. -/
theorem runEntries_at_most_one (o : Oracles) (e : Entry) :
    ∀ (ws : List Entry) (db : List Row), (ws.map Entry.ticker).Nodup → e ∈ ws →
      rowsFor e.ticker (runEntries o ws db).1 ≤ rowsFor e.ticker db + 1 := by
  intro ws
  induction ws with
  | nil => intro db _ he; exact absurd he (List.not_mem_nil e)
  | cons a rest ih =>
    intro db hnd he
    have hnd2 : (rest.map Entry.ticker).Nodup := by
      rw [List.map_cons] at hnd
      exact (List.nodup_cons.mp hnd).2
    have hnotin : a.ticker ∉ rest.map Entry.ticker := by
      rw [List.map_cons] at hnd
      exact (List.nodup_cons.mp hnd).1
    unfold runEntries
    rcases processEntry_cases o a db with ⟨err, hp⟩ | ⟨r, hr, hp⟩
    · rw [hp]
      cases err with
      | some m => dsimp only; omega
      | none =>
        dsimp only
        rcases List.mem_cons.mp he with rfl | he2
        · rw [runEntries_rowsFor_of_notin o e.ticker rest db hnotin]
          omega
        · exact ih db hnd2 he2
    · rw [hp]
      dsimp only
      rcases List.mem_cons.mp he with rfl | he2
      · rw [runEntries_rowsFor_of_notin o e.ticker rest (db ++ [r]) hnotin,
          rowsFor_append_one, if_pos hr]
      · have hETne : ¬(r.ticker = e.ticker) := by
          intro hh
          exact hnotin ((hr.symm.trans hh) ▸ List.mem_map_of_mem Entry.ticker he2)
        calc rowsFor e.ticker (runEntries o rest (db ++ [r])).1
            ≤ rowsFor e.ticker (db ++ [r]) + 1 := ih (db ++ [r]) hnd2 he2
          _ = rowsFor e.ticker db + 1 := by
              rw [rowsFor_append_one, if_neg hETne]

/-- The next daily occurrence is always strictly in the future. -/
theorem nextOccurrence_gt (t off : Nat) : t < nextOccurrence t off := by
  unfold nextOccurrence secondsPerDay
  split <;> omega

/-- The next daily occurrence stays on the job's daily schedule. -/
theorem nextOccurrence_mod (t off : Nat) :
    nextOccurrence t off % secondsPerDay = off % secondsPerDay := by
  unfold nextOccurrence secondsPerDay
  split <;> omega

/-- A well-formed trace stays well-formed under a smaller lower bound. -/
theorem eventsWF_mono :
    ∀ (l : List PassEvent) (lo lo2 : Nat), lo2 ≤ lo → eventsWF lo l → eventsWF lo2 l := by
  intro l lo lo2 h hw
  cases l with
  | nil => trivial
  | cons e rest => exact ⟨le_trans h hw.1, hw.2.1, hw.2.2.1, hw.2.2.2⟩

/-- Concatenating a trace that starts after the first trace's last finish
keeps the whole trace sequential. -/
theorem eventsWF_append :
    ∀ (l1 : List PassEvent) (lo : Nat) (l2 : List PassEvent),
      eventsWF lo l1 → eventsWF (eventsEnd lo l1) l2 → eventsWF lo (l1 ++ l2) := by
  intro l1
  induction l1 with
  | nil => intro lo l2 _ h2; exact h2
  | cons e rest ih =>
    intro lo l2 h1 h2
    exact ⟨h1.1, h1.2.1, h1.2.2.1, ih e.finishT l2 h1.2.2.2 h2⟩

/-- Each of the two registered daily at-times is below one day. -/
theorem dailyOffset_mod (off : Nat) (h : off = morningAt ∨ off = afternoonAt) :
    off % secondsPerDay = off := by
  rcases h with h | h <;> subst h <;> decide

/-- One `run_pending` poll preserves the jobs invariant, moves time
forward, produces a sequential trace of passes that all start at or after
the poll, finishes before the returned time, and fires only triggers on
the two daily schedules, strictly after process start. -/
theorem run_pending_spec (dur : Nat → Nat) (t0 : Nat) :
    ∀ (jobs : List (Nat × Nat)) (k t : Nat), jobsWF t0 jobs → t0 ≤ t →
      jobsWF t0 (run_pending dur k t jobs).jobs ∧
      t ≤ (run_pending dur k t jobs).time ∧
      eventsWF t (run_pending dur k t jobs).events ∧
      eventsEnd t (run_pending dur k t jobs).events ≤ (run_pending dur k t jobs).time ∧
      (∀ e ∈ (run_pending dur k t jobs).events,
        (e.trigger % secondsPerDay = morningAt ∨
         e.trigger % secondsPerDay = afternoonAt) ∧ t0 < e.trigger) := by
  intro jobs
  induction jobs with
  | nil =>
    intro k t hw ht
    exact ⟨fun p hp => absurd hp (List.not_mem_nil p), le_refl t, trivial, le_refl t,
      fun e he => absurd he (List.not_mem_nil e)⟩
  | cons j rest ih =>
    intro k t hw ht
    obtain ⟨off, nr⟩ := j
    have hj := hw (off, nr) (List.mem_cons_self _ _)
    have hrest : jobsWF t0 rest := fun p hp => hw p (List.mem_cons_of_mem _ hp)
    unfold run_pending
    by_cases hnr : nr ≤ t
    · rw [if_pos hnr]
      dsimp only
      have ih2 := ih (k + 1) (t + dur k) hrest (by omega)
      refine ⟨?_, ?_, ?_, ?_, ?_⟩
      · intro p hp
        rcases List.mem_cons.mp hp with hp1 | hp2
        · subst hp1
          refine ⟨hj.1, ?_, ?_⟩
          · rw [nextOccurrence_mod, dailyOffset_mod off hj.1]
          · have h1 := nextOccurrence_gt (t + dur k) off
            omega
        · exact ih2.1 p hp2
      · have := ih2.2.1
        omega
      · exact ⟨le_refl t, hnr, Nat.le_add_right t (dur k), ih2.2.2.1⟩
      · exact ih2.2.2.2.1
      · intro e he
        rcases List.mem_cons.mp he with he1 | he2
        · subst he1
          refine ⟨?_, hj.2.2⟩
          rw [hj.2.1]
          exact hj.1
        · exact ih2.2.2.2.2 e he2
    · rw [if_neg hnr]
      dsimp only
      have ih2 := ih k t hrest ht
      refine ⟨?_, ih2.2.1, ih2.2.2.1, ih2.2.2.2.1, ih2.2.2.2.2⟩
      intro p hp
      rcases List.mem_cons.mp hp with hp1 | hp2
      · subst hp1; exact hj
      · exact ih2.1 p hp2

/-- Any number of polling iterations from a well-formed job set produces a
sequential trace whose triggers all lie on the two daily schedules and
strictly after process start. -/
theorem schedulerLoop_spec (dur : Nat → Nat) (t0 : Nat) :
    ∀ (fuel k t : Nat) (jobs : List (Nat × Nat)), jobsWF t0 jobs → t0 ≤ t →
      eventsWF t (schedulerLoop dur fuel k t jobs) ∧
      ∀ e ∈ schedulerLoop dur fuel k t jobs,
        (e.trigger % secondsPerDay = morningAt ∨
         e.trigger % secondsPerDay = afternoonAt) ∧ t0 < e.trigger := by
  intro fuel
  induction fuel with
  | zero =>
    intro k t jobs hw ht
    exact ⟨trivial, fun e he => absurd he (List.not_mem_nil e)⟩
  | succ n ih =>
    intro k t jobs hw ht
    have hrp := run_pending_spec dur t0 jobs k t hw ht
    have hloop := ih (run_pending dur k t jobs).passCount
      ((run_pending dur k t jobs).time + 1) (run_pending dur k t jobs).jobs hrp.1
      (by have := hrp.2.1; omega)
    unfold schedulerLoop
    dsimp only
    constructor
    · refine eventsWF_append _ t _ hrp.2.2.1 ?_
      refine eventsWF_mono _ ((run_pending dur k t jobs).time + 1) _ ?_ hloop.1
      have := hrp.2.2.2.1
      omega
    · intro e he
      rcases List.mem_append.mp he with h1 | h2
      · exact hrp.2.2.2.2 e h1
      · exact hloop.2 e h2

/-- Claim C2: when the Market Data Fetcher returns an absent or empty
result for an entry's symbol, the pass appends no AdviceRecord for that
symbol, raises nothing for it, and continues with the next entry
unchanged. -/
theorem c2_skip_on_absent_market_data (o : Oracles) (e : Entry) (db : List Row)
    (rest : List Entry)
    (h : ∀ df, get_stock_data o.fetch o.taLib o.today e.ticker 180 = some df →
      DataFrame.isEmpty df = true) :
    processEntry o e db = (db, none) ∧
      runEntries o (e :: rest) db = runEntries o rest db := by
  have h1 : processEntry o e db = (db, none) := by
    unfold processEntry
    cases hs : get_stock_data o.fetch o.taLib o.today e.ticker 180 with
    | none => rfl
    | some df =>
      dsimp only
      rw [if_pos (h df hs)]
  refine ⟨h1, ?_⟩
  show (match processEntry o e db with
    | (db2, none) => runEntries o rest db2
    | (db2, some msg) => (db2, some msg)) = runEntries o rest db
  rw [h1]


/-- Claim C2 witness: with every upstream source down, the 한화오션 entry
is skipped and the pass moves on. -/
theorem c2_skip_on_absent_market_data_witness :
    processEntry oracleDown hanwhaOcean [] = ([], none) ∧
      runEntries oracleDown [hanwhaOcean, moaData] [] = runEntries oracleDown [moaData] [] :=
  c2_skip_on_absent_market_data oracleDown hanwhaOcean [] [moaData]
    (fun _df hdf => Option.noConfusion hdf)

/-- Claim C5: the News Headline Fetcher returns at most the requested
count of headlines, and any fetch/parse error yields the empty list
instead of an exception. -/
theorem c5_news_bounded_and_error_safe (page : String → Except String (List String))
    (ticker : String) (count : Nat) :
    (get_news_headlines page ticker count).length ≤ count ∧
      ((∃ msg, page ticker = Except.error msg) →
        get_news_headlines page ticker count = []) := by
  unfold get_news_headlines
  cases hp : page ticker with
  | error msg => exact ⟨Nat.zero_le count, fun _ => rfl⟩
  | ok titles =>
    constructor
    · rw [List.length_take]
      exact min_le_left count titles.length
    · rintro ⟨msg, hmsg⟩
      exact Except.noConfusion hmsg

/-- Claim C5 witness: a failing news page yields zero headlines. -/
theorem c5_news_bounded_and_error_safe_witness :
    (get_news_headlines (fun _ => Except.error "ConnectionError") "042660" 5).length ≤ 5 ∧
      get_news_headlines (fun _ => Except.error "ConnectionError") "042660" 5 = [] :=
  ⟨(c5_news_bounded_and_error_safe (fun _ => Except.error "ConnectionError") "042660" 5).1,
   (c5_news_bounded_and_error_safe (fun _ => Except.error "ConnectionError") "042660" 5).2
     ⟨"ConnectionError", rfl⟩⟩

/-- Claim C8: `init_stock_database` is idempotent — repeated calls leave
the same schema and all rows in place — and a failing `save_stock_advice`
INSERT is caught: it changes no rows, and whether and where a batch pass
aborts never depends on which inserts fail. -/
theorem c8_init_idempotent_and_append_failure_caught (s : Store) (db : List Row)
    (n t : String) (p : Value) (a : Option Json) (o : Oracles) (f : String → Bool)
    (ws : List Entry) (db2 : List Row) :
    init_stock_database (init_stock_database s) = init_stock_database s ∧
      (init_stock_database s).rows = s.rows ∧
      (init_stock_database s).table = some (s.table.getD adviceTableColumns) ∧
      save_stock_advice true db n t p a = db ∧
      (runEntries (setFail o f) ws db2).2 = (runEntries o ws db2).2 := by
  refine ⟨?_, ?_, ?_, save_fail_unchanged db n t p a, runEntries_snd_indep o f ws db2 db2⟩
  · cases s with
    | mk tb rows => cases tb <;> rfl
  · cases s with
    | mk tb rows => cases tb <;> rfl
  · cases s with
    | mk tb rows => cases tb <;> rfl

/-- Claim C10: a `None` advice or an empty (falsy) Decision object makes
`save_stock_advice` return without inserting anything, for every store
state and argument set (the function is total in the model — nothing
escapes it). -/
theorem c10_save_skips_absent_or_empty (failIns : Bool) (db : List Row)
    (n t : String) (p : Value) :
    save_stock_advice failIns db n t p none = db ∧
      save_stock_advice failIns db n t p (some (Json.obj [])) = db :=
  ⟨rfl, rfl⟩

/-- Claim C1 counterexample: for the 한화오션 entry — whose goal text
states the no-loss constraint — with the current close 90,000 strictly
below the 132,800 target acquisition price, a completion response that
decides SELL NOW is returned by `get_ai_advice` unchanged, so there is a
completion-API response under which the returned decision IS "SELL NOW". -/
theorem c1_counterexample :
    goalSignalsNoLoss hanwhaOcean.goal = true ∧
      lastCloseValue dfSmall = some (Value.num 90000) ∧
      (90000 : Rat) < hanwhaOcean.avg_buy_price ∧
      get_ai_advice apiSellNow hanwhaOcean.name hanwhaOcean.ticker hanwhaOcean.goal
          hanwhaOcean.avg_buy_price dfSmall [] none =
        Except.ok (some sellNowResponse, dfSmallMutated) ∧
      decisionOf (some sellNowResponse) = some (Json.str "SELL NOW") :=
  ⟨by decide, rfl, by norm_num [hanwhaOcean], rfl, rfl⟩

/-- Claim C1 (amended): the no-loss rule lives only in the prompt — the
system instruction always embeds the mandatory hold-below-target policy
paragraph, but `get_ai_advice` returns the completion response's decision
verbatim, with no code path filtering "SELL NOW". -/
theorem c1_policy_is_prompt_only (n t g : String) (avg : Rat) (df : DataFrame)
    (news : List String) (fund : Option FundData) (dates : List Value) (j : Json)
    (hdate : getCol df "date" = some dates) :
    (∃ pre post, buildSystemPrompt n t g avg = pre ++ mandatoryPolicyRule ++ post) ∧
      get_ai_advice (fun _ _ => ApiResult.parsed j) n t g avg df news fund =
        Except.ok (some j, setCol df "date" (dates.map formatDateValue)) := by
  refine ⟨⟨promptIntro n t g avg, promptOutro, rfl⟩, ?_⟩
  unfold get_ai_advice
  rw [hdate]
  rfl

/-- Claim C1 witness: the amended statement at the 한화오션 arguments. -/
theorem c1_policy_is_prompt_only_witness :
    (∃ pre post, buildSystemPrompt "한화오션" "042660" "목표" 132800 =
      pre ++ mandatoryPolicyRule ++ post) ∧
      get_ai_advice (fun _ _ => ApiResult.parsed Json.null) "한화오션" "042660" "목표"
          132800 dfSmall [] none =
        Except.ok (some Json.null,
          setCol dfSmall "date" ([Value.date 2025 10 1, Value.date 2025 10 2].map formatDateValue)) :=
  c1_policy_is_prompt_only "한화오션" "042660" "목표" 132800 dfSmall [] none
    [Value.date 2025 10 1, Value.date 2025 10 2] Json.null rfl

/-- Claim C3: a price-bar frame without the close column makes the
Technical Indicator Calculator raise (no default output), that failure
makes `get_stock_data` yield an absent result for the symbol, and the
batch skips the symbol and continues with the next entry. -/
theorem c3_missing_close_fatal_to_symbol_only (tl : TaLib) (df : DataFrame)
    (o : Oracles) (e : Entry) (raw : RawOhlcv) (db : List Row) (rest : List Entry)
    (hdf : getCol df "close" = none)
    (hfetch : o.fetch (o.today - 180) o.today e.ticker = Except.ok raw)
    (hraw : getCol (renameCols ohlcvRename (resetIndex raw)) "close" = none) :
    add_technical_indicators tl df = Except.error "KeyError: close" ∧
      get_stock_data o.fetch o.taLib o.today e.ticker 180 = none ∧
      processEntry o e db = (db, none) ∧
      runEntries o (e :: rest) db = runEntries o rest db := by
  have hind : ∀ (tl2 : TaLib) (df2 : DataFrame), getCol df2 "close" = none →
      add_technical_indicators tl2 df2 = Except.error "KeyError: close" := by
    intro tl2 df2 h2
    unfold add_technical_indicators
    rw [h2]
  have hgs : get_stock_data o.fetch o.taLib o.today e.ticker 180 = none := by
    unfold get_stock_data
    rw [hfetch]
    dsimp only
    by_cases he : DataFrame.isEmpty (renameCols ohlcvRename (resetIndex raw)) = true
    · rw [if_pos he]
    · rw [if_neg he, hind o.taLib _ hraw]
  have hpe : processEntry o e db = (db, none) := by
    unfold processEntry
    rw [hgs]
  refine ⟨hind tl df hdf, hgs, hpe, ?_⟩
  show (match processEntry o e db with
    | (db2, none) => runEntries o rest db2
    | (db2, some msg) => (db2, some msg)) = runEntries o rest db
  rw [hpe]

/-- Claim C3 witness: a fetched frame lacking 종가 aborts only that
symbol's pass and the batch continues. -/
theorem c3_missing_close_fatal_to_symbol_only_witness :
    add_technical_indicators taLibZero ⟨[]⟩ = Except.error "KeyError: close" ∧
      get_stock_data oracleNoClose.fetch oracleNoClose.taLib oracleNoClose.today
        hanwhaOcean.ticker 180 = none ∧
      processEntry oracleNoClose hanwhaOcean [] = ([], none) ∧
      runEntries oracleNoClose [hanwhaOcean] [] = runEntries oracleNoClose [] [] :=
  c3_missing_close_fatal_to_symbol_only taLibZero ⟨[]⟩ oracleNoClose hanwhaOcean
    rawNoClose [] [] rfl rfl rfl

/-- Claim C6 counterexample: a completion response whose body parses to
the JSON array `[1]` — valid JSON, but not a JSON object — is NOT
returned as absent: `get_ai_advice` hands it back verbatim, and the pass
then dies in `print_advice` with an uncaught TypeError rather than
skipping persistence for the symbol. -/
theorem c6_counterexample :
    get_ai_advice apiArrayResponse "한화오션" "042660" "목표" 132800 dfSmall [] none =
      Except.ok (some (Json.arr [Json.num 1]), dfSmallMutated) ∧
      processEntry oracleArray hanwhaOcean [] = ([], some "TypeError") :=
  ⟨rfl, rfl⟩

/-- Claim C6 (amended): when the completion call raises or its response
fails to parse as JSON at all, `get_ai_advice` returns an absent advice
and the pass appends no AdviceRecord for the symbol. -/
theorem c6_call_or_parse_failure_absent (o : Oracles) (e : Entry) (db : List Row)
    (n t g : String) (avg : Rat) (df : DataFrame) (news : List String)
    (fund : Option FundData) (dates : List Value)
    (hapi : ∀ s u, (o.api s u).isFailureOutcome = true)
    (hdate : getCol df "date" = some dates) :
    get_ai_advice o.api n t g avg df news fund =
      Except.ok (none, setCol df "date" (dates.map formatDateValue)) ∧
      (processEntry o e db).1 = db := by
  have hadv : ∀ (n2 t2 g2 : String) (avg2 : Rat) (df2 : DataFrame)
      (news2 : List String) (fund2 : Option FundData) (dates2 : List Value),
      getCol df2 "date" = some dates2 →
      get_ai_advice o.api n2 t2 g2 avg2 df2 news2 fund2 =
        Except.ok (none, setCol df2 "date" (dates2.map formatDateValue)) := by
    intro n2 t2 g2 avg2 df2 news2 fund2 dates2 hd2
    unfold get_ai_advice
    rw [hd2]
    dsimp only
    rw [adviceFromApi_of_failure _ (hapi _ _)]
  refine ⟨hadv n t g avg df news fund dates hdate, ?_⟩
  unfold processEntry
  cases hs : get_stock_data o.fetch o.taLib o.today e.ticker 180 with
  | none => rfl
  | some sd =>
    dsimp only
    by_cases he : DataFrame.isEmpty sd = true
    · rw [if_pos he]
    · rw [if_neg he]
      cases lastCloseValue sd with
      | none => rfl
      | some cp =>
        dsimp only
        cases hd : getCol sd "date" with
        | none =>
          rw [show get_ai_advice o.api e.name e.ticker e.goal e.avg_buy_price sd
              (get_news_headlines o.newsPage e.ticker 5)
              (get_fundamental_data o.fundamentals e.ticker) =
              Except.error "AttributeError: date" from by
            unfold get_ai_advice
            rw [hd]]
        | some ds =>
          rw [hadv e.name e.ticker e.goal e.avg_buy_price sd
            (get_news_headlines o.newsPage e.ticker 5)
            (get_fundamental_data o.fundamentals e.ticker) ds hd]
          rfl

/-- Claim C6 witness: the amended statement with a failing completion
call. -/
theorem c6_call_or_parse_failure_absent_witness :
    get_ai_advice oracleDown.api "한화오션" "042660" "목표" 132800 dfSmall [] none =
      Except.ok (none,
        setCol dfSmall "date" ([Value.date 2025 10 1, Value.date 2025 10 2].map formatDateValue)) ∧
      (processEntry oracleDown hanwhaOcean []).1 = [] :=
  c6_call_or_parse_failure_absent oracleDown hanwhaOcean [] "한화오션" "042660" "목표"
    132800 dfSmall [] none [Value.date 2025 10 1, Value.date 2025 10 2]
    (fun _ _ => rfl) rfl

/-- Claim C7 counterexample: `get_ai_advice` reassigns the `date` field of
the price-bar frame it is given (datetime cells become formatted strings),
so the fetched PriceBar sequence is modified downstream of the fetch. -/
theorem c7_counterexample :
    get_ai_advice apiDown "한화오션" "042660" "목표" 132800 dfSmall [] none =
      Except.ok (none, dfSmallMutated) ∧
      getCol dfSmall "date" = some [Value.date 2025 10 1, Value.date 2025 10 2] ∧
      getCol dfSmallMutated "date" =
        some [Value.str "2025-10-01", Value.str "2025-10-02"] ∧
      dfSmallMutated ≠ dfSmall :=
  ⟨rfl, rfl, rfl, by decide⟩

/-- Claim C7 (amended): the date column is the only thing `get_ai_advice`
mutates — every other column of the frame (prices, volumes, indicator
values) is unchanged in the frame it leaves behind. -/
theorem c7_only_date_column_mutated (api : String → String → ApiResult)
    (n t g : String) (avg : Rat) (df : DataFrame) (news : List String)
    (fund : Option FundData) (dates : List Value) (c : String)
    (res : Option Json × DataFrame)
    (hdate : getCol df "date" = some dates) (hc : c ≠ "date")
    (hres : get_ai_advice api n t g avg df news fund = Except.ok res) :
    getCol res.2 c = getCol df c := by
  unfold get_ai_advice at hres
  rw [hdate] at hres
  dsimp only at hres
  cases hres
  exact getCol_setCol_ne df "date" (dates.map formatDateValue) c hc

/-- Claim C7 witness: the close column survives the date mutation. -/
theorem c7_only_date_column_mutated_witness :
    getCol ((none : Option Json), dfSmallMutated).2 "close" = getCol dfSmall "close" :=
  c7_only_date_column_mutated apiDown "한화오션" "042660" "목표" 132800 dfSmall [] none
    [Value.date 2025 10 1, Value.date 2025 10 2] "close" (none, dfSmallMutated)
    rfl (by decide) rfl

/-- Claim C4: a single Batch Runner pass appends at most one AdviceRecord
per watchlist entry (the watchlist's tickers are pairwise distinct, as in
the source literal). -/
theorem c4_at_most_one_record_per_entry (o : Oracles) (ws : List Entry)
    (db : List Row) (e : Entry) (hnd : (ws.map Entry.ticker).Nodup)
    (he : e ∈ ws) :
    rowsFor e.ticker (runEntries o ws db).1 ≤ rowsFor e.ticker db + 1 :=
  runEntries_at_most_one o e ws db hnd he

/-- Claim C4 witness: a full pass over the source watchlist with a
healthy feed and a SELL NOW answer stores at most one row for 한화오션. -/
theorem c4_at_most_one_record_per_entry_witness :
    rowsFor hanwhaOcean.ticker (runEntries oracleSellNow stocks_to_analyze []).1 ≤
      rowsFor hanwhaOcean.ticker [] + 1 :=
  c4_at_most_one_record_per_entry oracleSellNow stocks_to_analyze [] hanwhaOcean
    (by decide) (List.mem_cons_self hanwhaOcean [moaData, tigerSnp500])

/-- Claim C9: the scheduler trace starts with exactly one pass at process
start (every later pass's trigger is strictly after start), every later
pass is triggered only by the 08:50 or the 15:00 daily schedule, and the
trace is sequential — each pass finishes before the next one starts. -/
theorem c9_scheduler_trace (dur : Nat → Nat) (fuel t0 : Nat) :
    ∃ rest, mainProgram dur fuel t0 = ⟨t0, t0, t0 + dur 0⟩ :: rest ∧
      (∀ e ∈ rest, (e.trigger % secondsPerDay = morningAt ∨
        e.trigger % secondsPerDay = afternoonAt) ∧ t0 < e.trigger) ∧
      eventsWF t0 (mainProgram dur fuel t0) := by
  have hjobs : jobsWF t0 [(morningAt, nextOccurrence t0 morningAt),
      (afternoonAt, nextOccurrence t0 afternoonAt)] := by
    intro p hp
    rcases List.mem_cons.mp hp with h1 | h2
    · subst h1
      exact ⟨Or.inl rfl,
        by rw [nextOccurrence_mod]; exact dailyOffset_mod morningAt (Or.inl rfl),
        nextOccurrence_gt t0 morningAt⟩
    · rcases List.mem_cons.mp h2 with h3 | h4
      · subst h3
        exact ⟨Or.inr rfl,
          by rw [nextOccurrence_mod]; exact dailyOffset_mod afternoonAt (Or.inr rfl),
          nextOccurrence_gt t0 afternoonAt⟩
      · exact absurd h4 (List.not_mem_nil p)
  have hl := schedulerLoop_spec dur t0 fuel 1 (t0 + dur 0)
    [(morningAt, nextOccurrence t0 morningAt),
     (afternoonAt, nextOccurrence t0 afternoonAt)] hjobs (Nat.le_add_right t0 (dur 0))
  refine ⟨schedulerLoop dur fuel 1 (t0 + dur 0)
    [(morningAt, nextOccurrence t0 morningAt),
     (afternoonAt, nextOccurrence t0 afternoonAt)], rfl, hl.2, ?_⟩
  exact ⟨le_refl t0, le_refl t0, Nat.le_add_right t0 (dur 0), hl.1⟩
